import Mathlib

/-
Verification of the policymap key/entry codec, precedence comparator and
port/protocol renderer of the cilium policymap package, against its
natural-language specification.

The repository sources available here are the package's test file
(TestPolicyEntriesDump_Less, TestPolicyMapWildcarding, TestPortProtoString);
the implementation file itself is absent, so the definitions below are
modelled from the spec (sections 3, 4.1-4.5 and 6), constrained by what the
test file pins down: call signatures (NewKey, newAllowEntry and newDenyEntry
return a single value, so they cannot fail), struct field names and types,
and the required outputs checked by the test assertions.
-/

namespace PolicyMap

/-- Modelled from the spec: Field-Width Model (spec section 3). The
implementation's constant definitions are missing from the sources; the
widths are fixed by the struct layout the test exhibits (uint32 identity plus
uint8 traffic direction make up the static part, uint8 protocol, uint16
destination port) and by the test case using `DestPortBits/2 = 8` for the
upper half of the port. -/
def NexthdrBits : Nat := 8

/-- Modelled from the spec: width of the destination-port field once fully
specified (spec section 3). -/
def DestPortBits : Nat := 16

/-- Modelled from the spec: number of always-significant bits covering
identity (32) and traffic direction (8) (spec section 3). -/
def StaticPrefixBits : Nat := 40

/-- Modelled from the spec: total key width, section 6 binary layout. -/
def FullPrefixBits : Nat := StaticPrefixBits + NexthdrBits + DestPortBits

/-- Modelled from the spec: traffic direction ingress; the comparator orders
ingress before egress (spec section 4.4), so ingress carries the smaller
numeric value. -/
def Ingress : Nat := 0

/-- Modelled from the spec: traffic direction egress. -/
def Egress : Nat := 1

/-- Modelled from the spec: conversion of a 16-bit value from host to network
(big-endian) byte order on a little-endian host, i.e. a byte swap; the
byteorder package is missing from the sources. -/
def hostToNetwork16 (x : Nat) : Nat :=
  x % 256 * 256 + x / 256 % 256

/-- Modelled from the spec: conversion of a 16-bit value from network back to
host byte order; the inverse byte swap. -/
def networkToHost16 (x : Nat) : Nat :=
  x % 256 * 256 + x / 256 % 256

/-- Modelled from the spec: the LPM lookup key (spec section 3). Field names
and their Go types (uint32 Prefixlen, uint32 Identity, uint8
TrafficDirection, uint8 Nexthdr, uint16 DestPortNetwork) appear in the test
file; each is modelled as a Nat holding the machine value. -/
structure PolicyKey where
  Prefixlen : Nat
  Identity : Nat
  TrafficDirection : Nat
  Nexthdr : Nat
  DestPortNetwork : Nat
deriving DecidableEq

/-- Modelled from the spec: the LPM lookup value (spec section 3). Field
names (ProxyPortNetwork, Flags, AuthType, LPMPrefixLength) appear in the
test file. -/
structure PolicyEntry where
  ProxyPortNetwork : Nat
  Flags : Nat
  AuthType : Nat
  LPMPrefixLength : Nat
deriving DecidableEq

/-- Modelled from the spec: the deny bit inside the Flags bitset (spec
section 3); the lowest flag bit, as `policyFlagDeny` is the first flag the
test file uses. -/
def policyFlagDeny : Nat := 1

/-- Modelled from the spec: a (key, entry) pair as dumped from the map; the
test file builds these with fields named Key and PolicyEntry. -/
structure PolicyKeyEntry where
  Key : PolicyKey
  PolicyEntry : PolicyEntry
deriving DecidableEq

/-- Modelled from the spec: a dumped batch of (key, entry) pairs. -/
def PolicyEntriesDump : Type := List PolicyKeyEntry

/-- Modelled from the spec: the Key Codec (spec section 4.2) computing
Prefixlen per the section 3 specificity ladder and storing the port in
network byte order unconditionally. The test's call site
`key := NewKey(...)` (single return value) shows NewKey is total and cannot
fail, so no validation happens here; the prefix length depends only on which
of protocol and port are nonzero. -/
def NewKey (trafficDirection id proto dport portPrefixLen : Nat) : PolicyKey :=
  { Prefixlen :=
      StaticPrefixBits +
        (if proto = 0 then 0
         else NexthdrBits + (if dport = 0 then 0 else portPrefixLen)),
    Identity := id,
    TrafficDirection := trafficDirection,
    Nexthdr := proto,
    DestPortNetwork := hostToNetwork16 dport }

/-- Modelled from the spec: the entry's 8-bit mirror of the variable part of
the key's prefix, `uint8(key.Prefixlen - StaticPrefixBits)` with uint32
wraparound subtraction followed by uint8 truncation (spec section 3,
LPMPrefixLength). -/
def lpmPrefixLengthOf (prefixlen : Nat) : Nat :=
  (prefixlen + 2 ^ 32 - StaticPrefixBits) % 2 ^ 32 % 2 ^ 8

/-- Modelled from the spec: the shared entry constructor of the Entry Codec
(spec section 4.3): stores the proxy port in network byte order and sets
LPMPrefixLength from the paired key. -/
def newEntry (key : PolicyKey) (flags authType proxyPort : Nat) : PolicyEntry :=
  { ProxyPortNetwork := hostToNetwork16 proxyPort,
    Flags := flags,
    AuthType := authType,
    LPMPrefixLength := lpmPrefixLengthOf key.Prefixlen }

/-- Modelled from the spec: the allow-entry builder (spec section 4.3),
clearing the deny bit, setting AuthType and the proxy port. The test's call
site `entry = newAllowEntry(key, authType, proxyPort)` (single return value)
shows it is total. -/
def newAllowEntry (key : PolicyKey) (authType proxyPort : Nat) : PolicyEntry :=
  newEntry key 0 authType proxyPort

/-- Modelled from the spec: the deny-entry builder (spec section 4.3),
setting the deny bit and forcing AuthType and ProxyPortNetwork to zero. The
test's call site `entry = newDenyEntry(key)` shows it takes only the key
(no auth or redirect parameters exist on the deny path) and is total. -/
def newDenyEntry (key : PolicyKey) : PolicyEntry :=
  newEntry key policyFlagDeny 0 0

/-- Modelled from the spec: the Wildcard Validator rules (spec sections 3
and 4.1) on the key-building parameters: a wildcarded protocol forces a
wildcarded port and zero port-prefix length; a wildcarded port forces a zero
port-prefix length; a specified port carries a port-prefix length between 1
and DestPortBits. The test file enforces exactly these rules on its own
test data before calling NewKey. -/
def ValidKeyParams (proto dport portPrefixLen : Nat) : Prop :=
  (proto = 0 → dport = 0 ∧ portPrefixLen = 0) ∧
  (dport = 0 → portPrefixLen = 0) ∧
  (dport ≠ 0 → 1 ≤ portPrefixLen ∧ portPrefixLen ≤ DestPortBits)

instance (proto dport portPrefixLen : Nat) :
    Decidable (ValidKeyParams proto dport portPrefixLen) := by
  unfold ValidKeyParams
  infer_instance

/-- Modelled from the spec: whether an entry carries the deny flag (spec
section 3); a bit test against the Flags bitset, as the test file's
`entry.Flags & policyFlagDeny` comparisons exhibit. -/
def isDenyEntry (e : PolicyEntry) : Bool :=
  e.Flags &&& policyFlagDeny != 0

/-- Modelled from the spec: the Precedence Comparator (spec section 4.4)
over two (key, entry) pairs: Identity ascending, then TrafficDirection
ascending, then deny-before-allow as the final tie-break. -/
def policyLess (a b : PolicyKeyEntry) : Bool :=
  if a.Key.Identity < b.Key.Identity then true
  else if b.Key.Identity < a.Key.Identity then false
  else if a.Key.TrafficDirection < b.Key.TrafficDirection then true
  else if b.Key.TrafficDirection < a.Key.TrafficDirection then false
  else isDenyEntry a.PolicyEntry && ! isDenyEntry b.PolicyEntry

/-- Modelled from the spec: the index form of the comparator as called by
the test file, `p.Less(i, j)` over a dumped batch; out-of-range indices
(which would panic in Go and are never exercised) read a zero pair. -/
def PolicyEntriesDump.Less (p : PolicyEntriesDump) (i j : Nat) : Bool :=
  policyLess ((List.getD p i ⟨⟨0, 0, 0, 0, 0⟩, ⟨0, 0, 0, 0⟩⟩))
    ((List.getD p j ⟨⟨0, 0, 0, 0, 0⟩, ⟨0, 0, 0, 0⟩⟩))

/-- Modelled from the spec: the external protocol-number to name mapping
(spec section 4.5); protocol 6 renders as TCP, the wildcard protocol 0 and
any number not mapped to a known name render as ANY. -/
def protoName (p : Nat) : String :=
  if p = 1 then "ICMP"
  else if p = 6 then "TCP"
  else if p = 17 then "UDP"
  else if p = 58 then "ICMPv6"
  else if p = 132 then "SCTP"
  else "ANY"

/-- Modelled from the spec: the numeric range of 16-bit ports sharing the
given port prefix, rendered low-high, where low is the port with all
maskBits low bits cleared and high the same value with those bits set
(spec section 4.5). -/
def portRangeString (dport maskBits : Nat) : String :=
  toString (dport / 2 ^ maskBits * 2 ^ maskBits) ++ "-" ++
    toString (dport / 2 ^ maskBits * 2 ^ maskBits + (2 ^ maskBits - 1))

/-- Modelled from the spec: the Port/Protocol Renderer (spec section 4.5),
a pure function of Prefixlen, Nexthdr and DestPortNetwork, by the spec's
cases; prefix lengths the spec leaves unspecified render a fixed marker. -/
def PolicyKey.PortProtoString (key : PolicyKey) : String :=
  let dport := networkToHost16 key.DestPortNetwork
  if key.Prefixlen = StaticPrefixBits then "ANY"
  else if key.Prefixlen = StaticPrefixBits + NexthdrBits then
    protoName key.Nexthdr
  else if key.Prefixlen = FullPrefixBits then
    toString dport ++ "/" ++ protoName key.Nexthdr
  else if StaticPrefixBits + NexthdrBits < key.Prefixlen ∧
      key.Prefixlen < FullPrefixBits then
    portRangeString dport (FullPrefixBits - key.Prefixlen) ++ "/" ++
      protoName key.Nexthdr
  else "<unspecified>"

/-- Converting a 16-bit value to network byte order and back is the
identity. -/
theorem networkToHost16_hostToNetwork16 (x : Nat) (h : x < 2 ^ 16) :
    networkToHost16 (hostToNetwork16 x) = x := by
  have h' : x < 65536 := by norm_num at h; exact h
  unfold networkToHost16 hostToNetwork16
  have e1 : x / 256 % 256 = x / 256 := Nat.mod_eq_of_lt (by omega)
  rw [e1, Nat.mul_comm (x % 256) 256, Nat.mul_add_mod, e1,
    Nat.mul_add_div (by norm_num : (0 : Nat) < 256)]
  have e2 : x / 256 / 256 = 0 := Nat.div_eq_of_lt (by omega)
  rw [e2, Nat.add_zero]
  omega

/-- The entry-side prefix mirror equals the plain subtraction on every
prefix length in the valid range. -/
theorem lpmPrefixLengthOf_eq_sub (p : Nat) (h1 : StaticPrefixBits ≤ p)
    (h2 : p ≤ FullPrefixBits) :
    lpmPrefixLengthOf p = p - StaticPrefixBits := by
  simp only [lpmPrefixLengthOf, StaticPrefixBits, FullPrefixBits, NexthdrBits,
    DestPortBits] at h1 h2 ⊢
  omega

/-- C1: for every input accepted by the wildcarding rules, the key built by
NewKey has Prefixlen given exactly by the specificity ladder: a wildcarded
protocol yields a zero network port and Prefixlen = StaticPrefixBits; a
specified protocol with wildcarded port yields
Prefixlen = StaticPrefixBits + NexthdrBits; a specified protocol and port
yield Prefixlen = StaticPrefixBits + NexthdrBits + portPrefixLen with the
port-prefix length between 1 and DestPortBits. -/
theorem newKey_specificity_ladder (d id proto dport plen : Nat)
    (h : ValidKeyParams proto dport plen) :
    (proto = 0 →
      (NewKey d id proto dport plen).DestPortNetwork = 0 ∧
      (NewKey d id proto dport plen).Prefixlen = StaticPrefixBits) ∧
    (proto ≠ 0 → dport = 0 →
      (NewKey d id proto dport plen).Prefixlen =
        StaticPrefixBits + NexthdrBits) ∧
    (proto ≠ 0 → dport ≠ 0 →
      (NewKey d id proto dport plen).Prefixlen =
        StaticPrefixBits + NexthdrBits + plen ∧
      1 ≤ plen ∧ plen ≤ DestPortBits) := by
  obtain ⟨h1, h2, h3⟩ := h
  refine ⟨fun hp => ?_, fun hp hd => ?_, fun hp hd => ?_⟩
  · obtain ⟨hd, _⟩ := h1 hp
    subst hp hd
    exact ⟨rfl, rfl⟩
  · show StaticPrefixBits +
        (if proto = 0 then 0
         else NexthdrBits + (if dport = 0 then 0 else plen)) =
      StaticPrefixBits + NexthdrBits
    rw [if_neg hp, if_pos hd]
    omega
  · refine ⟨?_, h3 hd⟩
    show StaticPrefixBits +
        (if proto = 0 then 0
         else NexthdrBits + (if dport = 0 then 0 else plen)) =
      StaticPrefixBits + NexthdrBits + plen
    rw [if_neg hp, if_neg hd]
    omega

/-- C1 witness: the ladder at the concrete non-wildcarded input
(ingress, identity 42, protocol 6, port 80, port-prefix length 16). -/
theorem newKey_specificity_ladder_witness :
    (NewKey Ingress 42 6 80 16).Prefixlen =
      StaticPrefixBits + NexthdrBits + 16 ∧
    1 ≤ 16 ∧ 16 ≤ DestPortBits :=
  (newKey_specificity_ladder Ingress 42 6 80 16 (by decide)).2.2
    (by decide) (by decide)

/-- C2: for every key whose prefix length lies in the valid range, both
entry builders produce an entry whose LPMPrefixLength equals
key.Prefixlen - StaticPrefixBits. -/
theorem entry_key_lpm_agreement (k : PolicyKey) (a p : Nat)
    (h1 : StaticPrefixBits ≤ k.Prefixlen) (h2 : k.Prefixlen ≤ FullPrefixBits) :
    (newAllowEntry k a p).LPMPrefixLength = k.Prefixlen - StaticPrefixBits ∧
    (newDenyEntry k).LPMPrefixLength = k.Prefixlen - StaticPrefixBits := by
  have hl := lpmPrefixLengthOf_eq_sub k.Prefixlen h1 h2
  exact ⟨hl, hl⟩

/-- C2 witness: entry/key prefix agreement at the concrete key of prefix
length StaticPrefixBits + NexthdrBits (protocol specified, port
wildcarded). -/
theorem entry_key_lpm_agreement_witness :
    (newAllowEntry ⟨48, 42, 0, 6, 0⟩ 1 23767).LPMPrefixLength =
      48 - StaticPrefixBits ∧
    (newDenyEntry ⟨48, 42, 0, 6, 0⟩).LPMPrefixLength =
      48 - StaticPrefixBits :=
  entry_key_lpm_agreement ⟨48, 42, 0, 6, 0⟩ 1 23767 (by decide) (by decide)

/-- C4: for every key, the deny-entry builder returns an entry whose deny
flag is set, whose AuthType is 0 and whose ProxyPortNetwork is 0; the
builder is a pure function of the key, so no other input or ambient state
can influence this. -/
theorem denyEntry_forces_zero (k : PolicyKey) :
    (newDenyEntry k).Flags &&& policyFlagDeny = policyFlagDeny ∧
    (newDenyEntry k).AuthType = 0 ∧
    (newDenyEntry k).ProxyPortNetwork = 0 :=
  ⟨by show policyFlagDeny &&& policyFlagDeny = policyFlagDeny; decide,
    rfl, rfl⟩

/-- C6 counterexample: on the concrete input that violates the wildcarding
rules (wildcarded protocol together with port 80 and port-prefix length 16),
NewKey does not fail: it returns a key — one whose DestPortNetwork is even
nonzero while Nexthdr is zero, breaking the ladder invariant the validator
was meant to protect. -/
theorem newKey_no_validation_counterexample :
    ¬ ValidKeyParams 0 80 16 ∧
    NewKey Ingress 42 0 80 16 =
      { Prefixlen := StaticPrefixBits, Identity := 42,
        TrafficDirection := Ingress, Nexthdr := 0,
        DestPortNetwork := hostToNetwork16 80 } ∧
    (NewKey Ingress 42 0 80 16).DestPortNetwork ≠ 0 := by
  refine ⟨by decide, rfl, by decide⟩

/-- C6 amended: NewKey performs no wildcard validation and cannot fail; even
for an input that violates the wildcarding rules it returns a key carrying
the given direction, identity and protocol and the port in network byte
order, with Prefixlen computed from which of protocol and port are nonzero;
enforcing the rules is the caller's responsibility. -/
theorem newKey_total_no_validation (d id proto dport plen : Nat)
    (h : ¬ ValidKeyParams proto dport plen) :
    (NewKey d id proto dport plen).Identity = id ∧
    (NewKey d id proto dport plen).TrafficDirection = d ∧
    (NewKey d id proto dport plen).Nexthdr = proto ∧
    (NewKey d id proto dport plen).DestPortNetwork = hostToNetwork16 dport :=
  ⟨rfl, rfl, rfl, rfl⟩

/-- C6 amended witness: the concrete rule-violating input (port wildcarded
but port-prefix length 16) still yields a key with the given fields. -/
theorem newKey_total_no_validation_witness :
    (NewKey Egress 7 6 0 16).Identity = 7 ∧
    (NewKey Egress 7 6 0 16).TrafficDirection = Egress ∧
    (NewKey Egress 7 6 0 16).Nexthdr = 6 ∧
    (NewKey Egress 7 6 0 16).DestPortNetwork = hostToNetwork16 0 :=
  newKey_total_no_validation Egress 7 6 0 16 (by decide)

/-- C8: the 16-bit port fields are stored in network byte order: reading the
key's destination port back through NetworkToHost16 returns the
caller-supplied port (including port 0), and reading an allow entry's proxy
port back returns the caller-supplied proxy port. -/
theorem ports_stored_network_byte_order (d id proto dport plen : Nat)
    (k : PolicyKey) (a pp : Nat) (h1 : dport < 2 ^ 16) (h2 : pp < 2 ^ 16) :
    networkToHost16 ((NewKey d id proto dport plen).DestPortNetwork) =
      dport ∧
    networkToHost16 ((newAllowEntry k a pp).ProxyPortNetwork) = pp :=
  ⟨networkToHost16_hostToNetwork16 dport h1,
    networkToHost16_hostToNetwork16 pp h2⟩

/-- C8 witness: byte-order round trip at the concrete port 80 and proxy
port 23767 of the wildcarding test. -/
theorem ports_stored_network_byte_order_witness :
    networkToHost16 ((NewKey Ingress 42 6 80 16).DestPortNetwork) = 80 ∧
    networkToHost16
      ((newAllowEntry ⟨64, 42, 0, 6, hostToNetwork16 80⟩ 1 23767).ProxyPortNetwork) =
      23767 :=
  ports_stored_network_byte_order Ingress 42 6 80 16
    ⟨64, 42, 0, 6, hostToNetwork16 80⟩ 1 23767 (by decide) (by decide)

/-- C9 counterexample: the deny-entry builder raises no error at all — it
takes only the key (the call site in the test shows no auth or redirect
parameters exist on the deny path) and, at the concrete fully-specified key,
returns the entry with the deny flag set and AuthType and ProxyPortNetwork
forced to zero, rather than failing. -/
theorem denyEntry_no_error_counterexample :
    newDenyEntry ⟨64, 42, 0, 6, hostToNetwork16 80⟩ =
      { ProxyPortNetwork := 0, Flags := policyFlagDeny, AuthType := 0,
        LPMPrefixLength := NexthdrBits + DestPortBits } := by
  decide

/-- C9 amended: the deny-entry builder accepts only the key — callers cannot
supply an auth type or redirect port to it — and it never fails: for every
key it returns an entry with the deny flag set, AuthType and
ProxyPortNetwork forced to zero, and LPMPrefixLength mirroring the key. -/
theorem denyEntry_total_forced_zero (k : PolicyKey) :
    isDenyEntry (newDenyEntry k) = true ∧
    (newDenyEntry k).AuthType = 0 ∧
    (newDenyEntry k).ProxyPortNetwork = 0 ∧
    (newDenyEntry k).LPMPrefixLength = lpmPrefixLengthOf k.Prefixlen :=
  ⟨by show (policyFlagDeny &&& policyFlagDeny != 0) = true; decide,
    rfl, rfl, rfl⟩

/-- Characterisation of the comparator: it is the lexicographic order on
(Identity, TrafficDirection, deny-before-allow). -/
theorem policyLess_eq_true_iff (a b : PolicyKeyEntry) :
    policyLess a b = true ↔
      a.Key.Identity < b.Key.Identity ∨
      (a.Key.Identity = b.Key.Identity ∧
        a.Key.TrafficDirection < b.Key.TrafficDirection) ∨
      (a.Key.Identity = b.Key.Identity ∧
        a.Key.TrafficDirection = b.Key.TrafficDirection ∧
        isDenyEntry a.PolicyEntry = true ∧
        isDenyEntry b.PolicyEntry = false) := by
  unfold policyLess
  split_ifs with h1 h2 h3 h4
  · simp [h1]
  · simp only [Bool.false_eq_true, false_iff]
    rintro (h | ⟨h, _⟩ | ⟨h, _, _⟩) <;> omega
  · have eId : a.Key.Identity = b.Key.Identity := by omega
    simp [eId, h3]
  · have eId : a.Key.Identity = b.Key.Identity := by omega
    simp only [Bool.false_eq_true, false_iff]
    rintro (h | ⟨_, h⟩ | ⟨_, h, _⟩) <;> omega
  · have eId : a.Key.Identity = b.Key.Identity := by omega
    have eTD : a.Key.TrafficDirection = b.Key.TrafficDirection := by omega
    simp [eId, eTD, Bool.and_eq_true, Bool.not_eq_true']

/-- The comparator never orders an element before itself. -/
theorem policyLess_irrefl (x : PolicyKeyEntry) : policyLess x x = false := by
  cases hxx : policyLess x x with
  | false => rfl
  | true =>
    rcases (policyLess_eq_true_iff x x).1 hxx with h | ⟨_, h⟩ | ⟨_, _, h3, h4⟩
    · omega
    · omega
    · rw [h4] at h3
      simp at h3

/-- C3: the comparator orders primarily by Identity ascending, secondarily
by TrafficDirection ascending, and consults the deny flag only as a
tie-break: any pair with the smaller Identity sorts strictly first
regardless of deny flags, and when Identity and TrafficDirection are both
equal a deny-flagged entry sorts strictly before a non-deny entry. -/
theorem less_orders_identity_direction_deny :
    (∀ a b : PolicyKeyEntry, a.Key.Identity < b.Key.Identity →
      policyLess a b = true ∧ policyLess b a = false) ∧
    (∀ a b : PolicyKeyEntry, a.Key.Identity = b.Key.Identity →
      a.Key.TrafficDirection = b.Key.TrafficDirection →
      isDenyEntry a.PolicyEntry = true → isDenyEntry b.PolicyEntry = false →
      policyLess a b = true ∧ policyLess b a = false) := by
  constructor
  · intro a b h
    refine ⟨(policyLess_eq_true_iff a b).2 (Or.inl h), ?_⟩
    cases hba : policyLess b a with
    | false => rfl
    | true =>
      rcases (policyLess_eq_true_iff b a).1 hba with h' | ⟨h', _⟩ | ⟨h', _, _⟩ <;>
        omega
  · intro a b hI hTD hda hdb
    refine ⟨(policyLess_eq_true_iff a b).2
      (Or.inr (Or.inr ⟨hI, hTD, hda, hdb⟩)), ?_⟩
    cases hba : policyLess b a with
    | false => rfl
    | true =>
      rcases (policyLess_eq_true_iff b a).1 hba with h' | ⟨_, h'⟩ | ⟨_, _, h3, _⟩
      · omega
      · omega
      · rw [hdb] at h3
        simp at h3

/-- C3 witness: the claim's two clauses at the concrete pairs of the dump
test: identity 0 (allow) sorts before identity 1 (deny), and at equal
identity 5 and equal direction a deny entry sorts before an allow entry. -/
theorem less_orders_identity_direction_deny_witness :
    policyLess ⟨⟨40, 0, 0, 0, 0⟩, ⟨0, 0, 0, 0⟩⟩
      ⟨⟨40, 1, 0, 0, 0⟩, ⟨0, 1, 0, 0⟩⟩ = true ∧
    policyLess ⟨⟨40, 5, 1, 0, 0⟩, ⟨0, 1, 0, 0⟩⟩
      ⟨⟨40, 5, 1, 0, 0⟩, ⟨0, 0, 0, 0⟩⟩ = true :=
  ⟨(less_orders_identity_direction_deny.1 ⟨⟨40, 0, 0, 0, 0⟩, ⟨0, 0, 0, 0⟩⟩
      ⟨⟨40, 1, 0, 0, 0⟩, ⟨0, 1, 0, 0⟩⟩ (by decide)).1,
    (less_orders_identity_direction_deny.2 ⟨⟨40, 5, 1, 0, 0⟩, ⟨0, 1, 0, 0⟩⟩
      ⟨⟨40, 5, 1, 0, 0⟩, ⟨0, 0, 0, 0⟩⟩ rfl rfl (by decide) (by decide)).1⟩

/-- C7: the comparator is a strict weak ordering: comparing an element of a
dump with itself yields false, the order is asymmetric (never both
Less(x, y) and Less(y, x)), and it is transitive. -/
theorem policyLess_strict_weak_order :
    (∀ (p : PolicyEntriesDump) (i : Nat),
      PolicyEntriesDump.Less p i i = false) ∧
    (∀ x y : PolicyKeyEntry, policyLess x y = true → policyLess y x = false) ∧
    (∀ x y z : PolicyKeyEntry, policyLess x y = true →
      policyLess y z = true → policyLess x z = true) := by
  refine ⟨?_, ?_, ?_⟩
  · intro p i
    unfold PolicyEntriesDump.Less
    exact policyLess_irrefl _
  · intro x y hxy
    cases hyx : policyLess y x with
    | false => rfl
    | true =>
      obtain ha | ⟨ha1, ha2⟩ | ⟨ha1, ha2, ha3, ha4⟩ :=
        (policyLess_eq_true_iff x y).1 hxy <;>
      obtain hb | ⟨hb1, hb2⟩ | ⟨hb1, hb2, hb3, hb4⟩ :=
        (policyLess_eq_true_iff y x).1 hyx
      · omega
      · omega
      · omega
      · omega
      · omega
      · omega
      · omega
      · omega
      · rw [ha4] at hb3
        simp at hb3
  · intro x y z hxy hyz
    refine (policyLess_eq_true_iff x z).2 ?_
    obtain ha | ⟨ha1, ha2⟩ | ⟨ha1, ha2, ha3, ha4⟩ :=
      (policyLess_eq_true_iff x y).1 hxy <;>
    obtain hb | ⟨hb1, hb2⟩ | ⟨hb1, hb2, hb3, hb4⟩ :=
      (policyLess_eq_true_iff y z).1 hyz
    · exact Or.inl (by omega)
    · exact Or.inl (by omega)
    · exact Or.inl (by omega)
    · exact Or.inl (by omega)
    · exact Or.inr (Or.inl ⟨by omega, by omega⟩)
    · exact Or.inr (Or.inl ⟨by omega, by omega⟩)
    · exact Or.inl (by omega)
    · exact Or.inr (Or.inl ⟨by omega, by omega⟩)
    · rw [ha4] at hb3
      simp at hb3

/-- C7 witness: irreflexivity at a concrete one-element dump, and
transitivity applied through a concrete chain of three pairs of ascending
identities. -/
theorem policyLess_strict_weak_order_witness :
    PolicyEntriesDump.Less [⟨⟨40, 3, 0, 0, 0⟩, ⟨0, 0, 0, 0⟩⟩] 0 0 = false ∧
    policyLess ⟨⟨40, 1, 0, 0, 0⟩, ⟨0, 0, 0, 0⟩⟩
      ⟨⟨40, 3, 0, 0, 0⟩, ⟨0, 1, 0, 0⟩⟩ = true :=
  ⟨policyLess_strict_weak_order.1 [⟨⟨40, 3, 0, 0, 0⟩, ⟨0, 0, 0, 0⟩⟩] 0,
    policyLess_strict_weak_order.2.2 ⟨⟨40, 1, 0, 0, 0⟩, ⟨0, 0, 0, 0⟩⟩
      ⟨⟨40, 2, 0, 0, 0⟩, ⟨0, 0, 0, 0⟩⟩ ⟨⟨40, 3, 0, 0, 0⟩, ⟨0, 1, 0, 0⟩⟩
      (by decide) (by decide)⟩

/-- C5: the renderer is a pure function of Prefixlen, Nexthdr and
DestPortNetwork by cases: ANY at the static prefix; the protocol name alone
at StaticPrefixBits + NexthdrBits; port/protocol-name at the full prefix;
for a partial port prefix with wildcarded protocol, the inclusive range
low-high/ANY with the bits below the prefix cleared in low and set in high;
and the five literal cases of the renderer test. -/
theorem portProtoString_cases :
    (∀ k : PolicyKey, k.Prefixlen = StaticPrefixBits →
      k.PortProtoString = "ANY") ∧
    (∀ k : PolicyKey, k.Prefixlen = StaticPrefixBits + NexthdrBits →
      k.PortProtoString = protoName k.Nexthdr) ∧
    (∀ k : PolicyKey, k.Prefixlen = FullPrefixBits →
      k.PortProtoString =
        toString (networkToHost16 k.DestPortNetwork) ++ "/" ++
          protoName k.Nexthdr) ∧
    (∀ k : PolicyKey, k.Nexthdr = 0 →
      StaticPrefixBits + NexthdrBits < k.Prefixlen →
      k.Prefixlen < FullPrefixBits →
      k.PortProtoString =
        portRangeString (networkToHost16 k.DestPortNetwork)
          (FullPrefixBits - k.Prefixlen) ++ "/" ++ "ANY") ∧
    PolicyKey.PortProtoString ⟨StaticPrefixBits, 0, Ingress, 0, 0⟩ = "ANY" ∧
    PolicyKey.PortProtoString
      ⟨FullPrefixBits, 0, Ingress, 0, hostToNetwork16 8080⟩ = "8080/ANY" ∧
    PolicyKey.PortProtoString
      ⟨FullPrefixBits, 0, Ingress, 6, hostToNetwork16 8080⟩ = "8080/TCP" ∧
    PolicyKey.PortProtoString
      ⟨StaticPrefixBits + NexthdrBits, 0, Ingress, 6, 0⟩ = "TCP" ∧
    PolicyKey.PortProtoString
      ⟨StaticPrefixBits + NexthdrBits + DestPortBits / 2, 0, Ingress, 0,
        hostToNetwork16 256⟩ = "256-511/ANY" := by
  refine ⟨?_, ?_, ?_, ?_, by decide, by decide, by decide, by decide,
    by decide⟩
  · intro k hk
    simp only [PolicyKey.PortProtoString]
    rw [if_pos hk]
  · intro k hk
    simp only [PolicyKey.PortProtoString]
    rw [if_neg (by rw [hk]; decide), if_pos hk]
  · intro k hk
    simp only [PolicyKey.PortProtoString]
    rw [if_neg (by rw [hk]; decide), if_neg (by rw [hk]; decide), if_pos hk]
  · intro k h0 hlt1 hlt2
    simp only [PolicyKey.PortProtoString]
    rw [if_neg (by omega), if_neg (by omega), if_neg (by omega),
      if_pos ⟨hlt1, hlt2⟩, h0]
    simp [protoName]

/-- C5 witness: the partial-port case applied at the concrete key of the
renderer test (upper 8 bits of port 256 specified, protocol wildcarded). -/
theorem portProtoString_cases_witness :
    PolicyKey.PortProtoString
      ⟨StaticPrefixBits + NexthdrBits + 8, 9, Ingress, 0,
        hostToNetwork16 256⟩ =
      portRangeString (networkToHost16 (hostToNetwork16 256))
        (FullPrefixBits - (StaticPrefixBits + NexthdrBits + 8)) ++ "/" ++
        "ANY" :=
  portProtoString_cases.2.2.2.1
    ⟨StaticPrefixBits + NexthdrBits + 8, 9, Ingress, 0, hostToNetwork16 256⟩
    rfl (by decide) (by decide)

/-- C10: NewKey is a total function: for every input tuple — including
combinations that violate the wildcarding rules — it returns a PolicyKey
(there is no error result), whose fields read back the inputs. -/
theorem newKey_total (d id proto dport plen : Nat) :
    ∃ k : PolicyKey, NewKey d id proto dport plen = k ∧
      k.Identity = id ∧ k.TrafficDirection = d ∧ k.Nexthdr = proto ∧
      k.DestPortNetwork = hostToNetwork16 dport ∧
      StaticPrefixBits ≤ k.Prefixlen := by
  refine ⟨NewKey d id proto dport plen, rfl, rfl, rfl, rfl, rfl, ?_⟩
  exact Nat.le_add_right _ _

end PolicyMap
